import Mathlib

/-!
# Redash exporter: the poll, decode, normalize and publish cycle

A shallow embedding of `main.go`: the status snapshot type `redashStatus`, the
decoding of a status document into it (the rules `encoding/json` applies to the
struct tags of the source), `getRedashStatus`, `getRedashTasks`, the normalizer
loop of `main` and one pass of the polling goroutine over the gauge vectors.

Modelling conventions.

* A Go `float64` is never computed with in the program: values are decoded,
  stored in a map and handed to `Set`. A `float64` is modelled by the rational
  number it denotes (`Float64`); `float64(len(s.Tasks))` is the exact cast,
  which is what Go computes for every length below `2^53`.
* `strconv.ParseFloat` is outside the repository. Every decoder takes it as the
  argument `pf : String → Option Float64` (`none` is a parse or range error).
* A response body is represented by the JSON document it holds (`JSON`, number
  literals kept as text), or by `none` when the bytes are not valid JSON.
* `json.Unmarshal` into `ApiAdminQueriesTasksAnswer` is not followed field by
  field: its outcome (the `jsonBody` it leaves behind and its error) is part of
  the task-list response, since the loop only reads `len(s.Tasks)`.
* A `GaugeVec` declared with no label names has at most one child; it is
  modelled by `Option Float64` (`none`: no child yet, nothing is exposed).
  `info` is a map from the value of `redash_version` to the child's value.
* `log.Error` is modelled by the list of messages a cycle logs; `time.Sleep`
  has no effect on the state and is left out.
-/

namespace RedashExporter

/-- The value of a Go `float64`: the rational number it denotes. -/
abbrev Float64 := ℚ

/-! ## Values of type `interface{}` produced by `encoding/json` -/

/-- The dynamic values `json.Unmarshal` stores in an `interface{}`:
`nil`, `bool`, `float64`, `string`, `[]interface{}` and
`map[string]interface{}` (members in document order). -/
inductive Value where
  | nil : Value
  | bool (b : Bool) : Value
  | float64 (x : Float64) : Value
  | string (s : String) : Value
  | slice (elems : List Value) : Value
  | map (members : List (String × Value)) : Value

/-- A JSON document as the decoder sees it; a number keeps its literal text. -/
inductive JSON where
  | null : JSON
  | bool (b : Bool) : JSON
  | number (lit : String) : JSON
  | string (s : String) : JSON
  | array (elems : List JSON) : JSON
  | object (members : List (String × JSON)) : JSON

/-! ## The snapshot types of the source -/

/-- The anonymous struct `struct { Size float64 }` of the three queues
(JSON key `size`). -/
structure QueueSize where
  Size : Float64 := 0
deriving DecidableEq

/-- The field `Queues` of `redashStatus.Manager`. -/
structure Queues where
  Celery : QueueSize := {}
  Queries : QueueSize := {}
  ScheduledQueries : QueueSize := {}
deriving DecidableEq

/-- The field `Manager` of `redashStatus`. -/
structure Manager where
  OutdatedQueriesCount : Float64 := 0
  Queues : Queues := {}
deriving DecidableEq

/-- The field `DatabaseMetrics` of `redashStatus`: `Metrics [][]interface{}`. -/
structure DatabaseMetrics where
  Metrics : List (List Value) := []

/-- The struct `redashStatus`; the defaults are Go's zero values. -/
structure redashStatus where
  DashboardsCount : Float64 := 0
  DatabaseMetrics : DatabaseMetrics := {}
  Manager : Manager := {}
  QueriesCount : Float64 := 0
  QueryResultsCount : Float64 := 0
  RedisUsedMemory : Float64 := 0
  UnusedQueryResultsCount : Float64 := 0
  RedashVersion : String := ""
  WidgetsCount : Float64 := 0

/-- One element of `ApiAdminQueriesTasksAnswer.Tasks`. -/
structure Task where
  Scheduled : Bool := false
  UserID : Int := 0
  TaskID : String := ""
  OrgID : Int := 0
  StartTime : Float64 := 0
  Worker : String := ""
  EnqueueTime : Float64 := 0
  Queue : String := ""
  State : String := ""
  QueryID : String := ""
  DataSourceID : Int := 0
  TaskName : String := ""
  WorkerPid : Int := 0
deriving DecidableEq

/-- The struct `ApiAdminQueriesTasksAnswer`. -/
structure ApiAdminQueriesTasksAnswer where
  Tasks : List Task := []
deriving DecidableEq

/-! ## The normalizer loop of `main` (lines 230 to 243) -/

/-- A Go `map[string]float64`: the binding of each key, if any. -/
abbrev MetricsMap := String → Option Float64

/-- The map literal `map[string]float64{}`. -/
def MetricsMap.empty : MetricsMap := fun _ => none

/-- The assignment `metrics[key] = val`. -/
def MetricsMap.set (m : MetricsMap) (key : String) (val : Float64) : MetricsMap :=
  fun k => if k = key then some val else m k

/-- The index expression `metrics[key]`: the zero value when `key` is unbound. -/
def MetricsMap.get (m : MetricsMap) (key : String) : Float64 :=
  (m key).getD 0

/-- One iteration of the inner loop `for _, m := range metric`: the type switch
on `m` assigns `key` on a `string`, `val` on a `float64`, nothing otherwise. -/
def scanElem (kv : String × Float64) (m : Value) : String × Float64 :=
  match m with
  | .string s => (s, kv.2)
  | .float64 x => (kv.1, x)
  | _ => kv

/-- The inner loop over one entry, from `var key string; var val float64`. -/
def scanEntry (metric : List Value) : String × Float64 :=
  metric.foldl scanElem ("", 0)

/-- One iteration of the outer loop: scan the entry, then `metrics[key] = val`. -/
def normalizeStep (metrics : MetricsMap) (metric : List Value) : MetricsMap :=
  metrics.set (scanEntry metric).1 (scanEntry metric).2

/-- The outer loop `for _, metric := range status.DatabaseMetrics.Metrics`,
started on the empty map. -/
def normalize (ms : List (List Value)) : MetricsMap :=
  ms.foldl normalizeStep MetricsMap.empty

/-! ## Decoding a status document (`json.Unmarshal` into `redashStatus`) -/

mutual
/-- Decoding into an `interface{}` (`valueInterface`): a number becomes a
`float64` through `pf`, and a literal that `pf` rejects is an error. -/
def toInterface (pf : String → Option Float64) : JSON → Except String Value
  | .null => .ok .nil
  | .bool b => .ok (.bool b)
  | .number lit =>
    match pf lit with
    | some x => .ok (.float64 x)
    | none => .error ("json: cannot unmarshal number " ++ lit)
  | .string s => .ok (.string s)
  | .array elems =>
    match toInterfaceList pf elems with
    | .ok vs => .ok (.slice vs)
    | .error e => .error e
  | .object members =>
    match toInterfaceMembers pf members with
    | .ok kvs => .ok (.map kvs)
    | .error e => .error e
/-- The elements of an array decoded into `[]interface{}`, in order. -/
def toInterfaceList (pf : String → Option Float64) : List JSON → Except String (List Value)
  | [] => .ok []
  | j :: js =>
    match toInterface pf j with
    | .error e => .error e
    | .ok v =>
      match toInterfaceList pf js with
      | .ok vs => .ok (v :: vs)
      | .error e => .error e
/-- The members of an object decoded into `map[string]interface{}`, in order. -/
def toInterfaceMembers (pf : String → Option Float64) :
    List (String × JSON) → Except String (List (String × Value))
  | [] => .ok []
  | (k, j) :: rest =>
    match toInterface pf j with
    | .error e => .error e
    | .ok v =>
      match toInterfaceMembers pf rest with
      | .ok kvs => .ok ((k, v) :: kvs)
      | .error e => .error e
end

/-- Case folding of one rune of a key, as `encoding/json` compares keys with
ASCII field names: ASCII letters fold to upper case, the long s (U+017F) folds
to `S`, the Kelvin sign (U+212A) folds to `K`, every other rune is kept. -/
def foldRune (c : Char) : Char :=
  if 'a' ≤ c ∧ c ≤ 'z' then Char.ofNat (c.toNat - 32)
  else if c = Char.ofNat 0x17F then 'S'
  else if c = Char.ofNat 0x212A then 'K'
  else c

/-- The case-insensitive comparison of an ASCII field name with a key. -/
def equalFold (name key : String) : Bool :=
  name.data.map foldRune == key.data.map foldRune

/-- The field a key selects among the JSON names of a struct: the name equal
to the key if there is one, else the first name that matches it up to case;
`none` for an unknown key, whose value is skipped. -/
def findField (names : List String) (key : String) : Option String :=
  match names.find? (fun n => n == key) with
  | some n => some n
  | none => names.find? (fun n => equalFold n key)

/-- Decoding into a `float64` field (plain tag): `null` leaves the field as it
is, a number is parsed by `pf`, anything else is a type error. -/
def decodeFloat64 (pf : String → Option Float64) (cur : Float64) : JSON → Except String Float64
  | .null => .ok cur
  | .number lit =>
    match pf lit with
    | some x => .ok x
    | none => .error ("json: cannot unmarshal number " ++ lit ++ " into Go value of type float64")
  | _ => .error "json: cannot unmarshal value into Go value of type float64"

/-- The store of the text of a quoted value into a `float64` (`literalStore`
with `fromQuoted`): the text `null` leaves the field as it is; a text starting
with `-` or a digit is parsed by `pf`; every other text (empty, a boolean, a
text starting with a double quote, code 34, or with any other rune) is an
error. -/
def literalStoreQuoted (pf : String → Option Float64) (cur : Float64) (item : String) :
    Except String Float64 :=
  match item.data with
  | [] => .error "json: invalid use of ,string struct tag"
  | c :: _ =>
    if c = 'n' then
      if item = "null" then .ok cur
      else .error "json: invalid use of ,string struct tag"
    else if c = 't' ∨ c = 'f' ∨ c = Char.ofNat 34 then
      .error "json: invalid use of ,string struct tag"
    else if c ≠ '-' ∧ ¬ ('0' ≤ c ∧ c ≤ '9') then
      .error "json: invalid use of ,string struct tag"
    else
      match pf item with
      | some x => .ok x
      | none => .error ("json: cannot unmarshal number " ++ item ++ " into Go value of type float64")

/-- Decoding into a `float64` field tagged `,string`: `null` leaves the field
as it is, a JSON string is stored through `literalStoreQuoted`, and an unquoted
value of any other kind is an error. -/
def decodeQuotedFloat64 (pf : String → Option Float64) (cur : Float64) :
    JSON → Except String Float64
  | .null => .ok cur
  | .string s => literalStoreQuoted pf cur s
  | _ => .error "json: invalid use of ,string struct tag, trying to unmarshal unquoted value into float64"

/-- Decoding into a `string` field: `null` leaves it, a string sets it. -/
def decodeString (cur : String) : JSON → Except String String
  | .null => .ok cur
  | .string s => .ok s
  | _ => .error "json: cannot unmarshal value into Go value of type string"

/-- Decoding into one element of `Metrics`, a `[]interface{}`: `null` gives the
nil slice, an array gives its decoded elements (whatever the element held
before), anything else is a type error. -/
def decodeEntry (pf : String → Option Float64) : JSON → Except String (List Value)
  | .null => .ok []
  | .array elems => toInterfaceList pf elems
  | _ => .error "json: cannot unmarshal value into Go value of type []interface"

/-- Decoding into `Metrics [][]interface{}`: `null` gives the nil slice, an
array is decoded element by element and replaces the slice, anything else is a
type error. -/
def decodeMetrics (pf : String → Option Float64) : JSON → Except String (List (List Value))
  | .null => .ok []
  | .array elems => elems.mapM (decodeEntry pf)
  | _ => .error "json: cannot unmarshal value into Go value of type [][]interface"

/-- One member of an object decoded into a queue struct (JSON name `size`). -/
def decodeQueueSizeMember (pf : String → Option Float64) (cur : QueueSize)
    (kv : String × JSON) : Except String QueueSize :=
  match findField ["size"] kv.1 with
  | none => .ok cur
  | some f =>
    if f = "size" then (decodeFloat64 pf cur.Size kv.2).map (fun x => { cur with Size := x })
    else .ok cur

/-- Decoding into a queue struct: `null` leaves it, an object is read member by
member in document order, anything else is a type error. -/
def decodeQueueSize (pf : String → Option Float64) (cur : QueueSize) :
    JSON → Except String QueueSize
  | .null => .ok cur
  | .object members => members.foldlM (decodeQueueSizeMember pf) cur
  | _ => .error "json: cannot unmarshal value into Go struct field"

/-- The JSON names of the fields of `Manager.Queues`. -/
def queuesFields : List String := ["celery", "queries", "scheduled_queries"]

/-- One member of an object decoded into `Manager.Queues`. -/
def decodeQueuesMember (pf : String → Option Float64) (cur : Queues)
    (kv : String × JSON) : Except String Queues :=
  match findField queuesFields kv.1 with
  | none => .ok cur
  | some f =>
    if f = "celery" then
      (decodeQueueSize pf cur.Celery kv.2).map (fun x => { cur with Celery := x })
    else if f = "queries" then
      (decodeQueueSize pf cur.Queries kv.2).map (fun x => { cur with Queries := x })
    else if f = "scheduled_queries" then
      (decodeQueueSize pf cur.ScheduledQueries kv.2).map
        (fun x => { cur with ScheduledQueries := x })
    else .ok cur

/-- Decoding into `Manager.Queues`. -/
def decodeQueues (pf : String → Option Float64) (cur : Queues) : JSON → Except String Queues
  | .null => .ok cur
  | .object members => members.foldlM (decodeQueuesMember pf) cur
  | _ => .error "json: cannot unmarshal value into Go struct field"

/-- The JSON names of the fields of `Manager`. -/
def managerFields : List String := ["outdated_queries_count", "queues"]

/-- One member of an object decoded into `Manager`; `outdated_queries_count`
carries the `,string` option. -/
def decodeManagerMember (pf : String → Option Float64) (cur : Manager)
    (kv : String × JSON) : Except String Manager :=
  match findField managerFields kv.1 with
  | none => .ok cur
  | some f =>
    if f = "outdated_queries_count" then
      (decodeQuotedFloat64 pf cur.OutdatedQueriesCount kv.2).map
        (fun x => { cur with OutdatedQueriesCount := x })
    else if f = "queues" then
      (decodeQueues pf cur.Queues kv.2).map (fun x => { cur with Queues := x })
    else .ok cur

/-- Decoding into `Manager`. -/
def decodeManager (pf : String → Option Float64) (cur : Manager) : JSON → Except String Manager
  | .null => .ok cur
  | .object members => members.foldlM (decodeManagerMember pf) cur
  | _ => .error "json: cannot unmarshal value into Go struct field"

/-- One member of an object decoded into `DatabaseMetrics` (JSON name
`metrics`). -/
def decodeDatabaseMetricsMember (pf : String → Option Float64) (cur : DatabaseMetrics)
    (kv : String × JSON) : Except String DatabaseMetrics :=
  match findField ["metrics"] kv.1 with
  | none => .ok cur
  | some f =>
    if f = "metrics" then (decodeMetrics pf kv.2).map (fun x => { cur with Metrics := x })
    else .ok cur

/-- Decoding into `DatabaseMetrics`. -/
def decodeDatabaseMetrics (pf : String → Option Float64) (cur : DatabaseMetrics) :
    JSON → Except String DatabaseMetrics
  | .null => .ok cur
  | .object members => members.foldlM (decodeDatabaseMetricsMember pf) cur
  | _ => .error "json: cannot unmarshal value into Go struct field"

/-- The JSON names of the fields of `redashStatus`, in declaration order. -/
def statusFields : List String :=
  ["dashboards_count", "database_metrics", "manager", "queries_count", "query_results_count",
   "redis_used_memory", "unused_query_results_count", "version", "widgets_count"]

/-- One member of an object decoded into `redashStatus`. -/
def decodeStatusMember (pf : String → Option Float64) (cur : redashStatus)
    (kv : String × JSON) : Except String redashStatus :=
  match findField statusFields kv.1 with
  | none => .ok cur
  | some f =>
    if f = "dashboards_count" then
      (decodeFloat64 pf cur.DashboardsCount kv.2).map (fun x => { cur with DashboardsCount := x })
    else if f = "database_metrics" then
      (decodeDatabaseMetrics pf cur.DatabaseMetrics kv.2).map
        (fun x => { cur with DatabaseMetrics := x })
    else if f = "manager" then
      (decodeManager pf cur.Manager kv.2).map (fun x => { cur with Manager := x })
    else if f = "queries_count" then
      (decodeFloat64 pf cur.QueriesCount kv.2).map (fun x => { cur with QueriesCount := x })
    else if f = "query_results_count" then
      (decodeFloat64 pf cur.QueryResultsCount kv.2).map
        (fun x => { cur with QueryResultsCount := x })
    else if f = "redis_used_memory" then
      (decodeFloat64 pf cur.RedisUsedMemory kv.2).map (fun x => { cur with RedisUsedMemory := x })
    else if f = "unused_query_results_count" then
      (decodeFloat64 pf cur.UnusedQueryResultsCount kv.2).map
        (fun x => { cur with UnusedQueryResultsCount := x })
    else if f = "version" then
      (decodeString cur.RedashVersion kv.2).map (fun x => { cur with RedashVersion := x })
    else if f = "widgets_count" then
      (decodeFloat64 pf cur.WidgetsCount kv.2).map (fun x => { cur with WidgetsCount := x })
    else .ok cur

/-- Decoding a document into a `redashStatus` value: `null` leaves it, an object
is read member by member in document order, anything else is a type error. -/
def decodeStatus (pf : String → Option Float64) (cur : redashStatus) :
    JSON → Except String redashStatus
  | .null => .ok cur
  | .object members => members.foldlM (decodeStatusMember pf) cur
  | _ => .error "json: cannot unmarshal value into Go value of type main.redashStatus"

/-- The call `json.Unmarshal(body, &jsonBody)` of `getRedashStatus`, on the
zero value of `var jsonBody redashStatus`; `none` is a body that is not valid
JSON. -/
def unmarshalStatus (pf : String → Option Float64) (body : Option JSON) :
    Except String redashStatus :=
  match body with
  | none => .error "invalid character looking for beginning of value"
  | some doc => decodeStatus pf {} doc

/-- A model of `strconv.ParseFloat` on unsigned decimal integers, used to
evaluate the decoders on concrete documents. -/
def parseDigits : List Char → Option Nat
  | [] => none
  | cs => cs.foldl (fun acc c =>
      match acc with
      | some n => if '0' ≤ c ∧ c ≤ '9' then some (10 * n + (c.toNat - 48)) else none
      | none => none) (some 0)

/-- The parser `parseDigits` as an argument for `pf`. -/
def parseNat (lit : String) : Option Float64 :=
  (parseDigits lit.data).map (fun n => (n : ℚ))

/-! ## The two fetches -/

/-- What `http.Get` and `ioutil.ReadAll` give for the status endpoint: an error
of `http.Get`, an error of `ReadAll`, or the body (`none`: not valid JSON). -/
inductive StatusResponse where
  | getError (e : String) : StatusResponse
  | readError (e : String) : StatusResponse
  | body (doc : Option JSON) : StatusResponse

/-- What the task-list endpoint gives: an error of `http.Get`, an error of
`ReadAll`, or a body together with what `json.Unmarshal(body, &jsonBody)` makes
of it: the `jsonBody` it leaves and its error, if any. -/
inductive TasksResponse where
  | getError (e : String) : TasksResponse
  | readError (e : String) : TasksResponse
  | body (jsonBody : ApiAdminQueriesTasksAnswer) (e : Option String) : TasksResponse

/-- The function `getRedashStatus`: every failure returns an error (and the
zero snapshot, which the caller never reads). -/
def getRedashStatus (pf : String → Option Float64) : StatusResponse → Except String redashStatus
  | .getError e => .error ("httpGet error : " ++ e)
  | .readError e => .error ("io read error : " ++ e)
  | .body doc =>
    match unmarshalStatus pf doc with
    | .error e => .error ("json parse error : " ++ e ++ ". Is api key correct?")
    | .ok jsonBody => .ok jsonBody

/-- The function `getRedashTasks`: the returned pair `(jsonBody, error)`.
`jsonBody` is the zero value when `http.Get` or `ReadAll` fails and whatever
`json.Unmarshal` left in it otherwise. -/
def getRedashTasks : TasksResponse → ApiAdminQueriesTasksAnswer × Option String
  | .getError e => ({}, some ("httpGet error : " ++ e))
  | .readError e => ({}, some ("io read error : " ++ e))
  | .body jsonBody (some e) => (jsonBody, some ("json parse error : " ++ e ++ ". Is api key correct?"))
  | .body jsonBody none => (jsonBody, none)

/-! ## The gauge vectors and one pass of the polling loop -/

/-- The gauge vectors declared in the `var` block of the source. -/
structure Gauges where
  info : String → Option Float64
  dashboardsCount : Option Float64
  queryResultsSize : Option Float64
  dbSize : Option Float64
  outdatedQueriesCount : Option Float64
  queuesCelery : Option Float64
  queuesQueries : Option Float64
  queuesScheduledQueries : Option Float64
  queriesCount : Option Float64
  queryResultsCount : Option Float64
  redisUsedMemory : Option Float64
  unusedQueryResultsCount : Option Float64
  widgetsCount : Option Float64
  activeTasksCount : Option Float64

/-- The registry at process start: no vector has a child. -/
def Gauges.init : Gauges :=
  { info := fun _ => none, dashboardsCount := none, queryResultsSize := none, dbSize := none,
    outdatedQueriesCount := none, queuesCelery := none, queuesQueries := none,
    queuesScheduledQueries := none, queriesCount := none, queryResultsCount := none,
    redisUsedMemory := none, unusedQueryResultsCount := none, widgetsCount := none,
    activeTasksCount := none }

/-- The call `info.With(infoLabel).Set(x)` for the label value `version`. -/
def setInfo (info : String → Option Float64) (version : String) (x : Float64) :
    String → Option Float64 :=
  fun v => if v = version then some x else info v

/-- The outcome of one pass of the loop: the gauges and the messages logged. -/
structure CycleResult where
  gauges : Gauges
  logged : List String

/-- The writes of lines 244 to 256: every system-status series is set from the
snapshot and the normalized metrics. -/
def publishStatus (status : redashStatus) (g : Gauges) : Gauges :=
  let metrics := normalize status.DatabaseMetrics.Metrics
  { g with
    info := setInfo g.info status.RedashVersion 1
    dashboardsCount := some status.DashboardsCount
    queryResultsSize := some (metrics.get "Query Results Size")
    dbSize := some (metrics.get "Redash DB Size")
    outdatedQueriesCount := some status.Manager.OutdatedQueriesCount
    queuesCelery := some status.Manager.Queues.Celery.Size
    queuesQueries := some status.Manager.Queues.Queries.Size
    queuesScheduledQueries := some status.Manager.Queues.ScheduledQueries.Size
    queriesCount := some status.QueriesCount
    queryResultsCount := some status.QueryResultsCount
    redisUsedMemory := some status.RedisUsedMemory
    unusedQueryResultsCount := some status.UnusedQueryResultsCount
    widgetsCount := some status.WidgetsCount }

/-- Lines 226 to 264, the pass after a successful `getRedashStatus`: the status
series are written, the task list is fetched, its error (if any) is logged,
and `activeTasksCount` is set to `float64(len(s.Tasks))` in either case. -/
def publishSnapshot (status : redashStatus) (tr : TasksResponse) (g : Gauges) : CycleResult :=
  let g1 := publishStatus status g
  let se := getRedashTasks tr
  { gauges := { g1 with activeTasksCount := some (se.1.Tasks.length : ℚ) }
    logged := match se.2 with
      | some e => [e]
      | none => [] }

/-- One pass of the body of the `for` loop of `main`, given what the two
endpoints answer. On an error of `getRedashStatus` the error is logged and the
pass ends (`continue`); otherwise the pass goes on with `publishSnapshot`. -/
def pollCycle (pf : String → Option Float64) (sr : StatusResponse) (tr : TasksResponse)
    (g : Gauges) : CycleResult :=
  match getRedashStatus pf sr with
  | .error err => { gauges := g, logged := [err] }
  | .ok status => publishSnapshot status tr g

/-- What the two endpoints answer during one pass. -/
structure Cycle where
  status : StatusResponse
  tasks : TasksResponse

/-- The gauges after the passes `cs`, run in order from the gauges `g`. -/
def runCycles (pf : String → Option Float64) (cs : List Cycle) (g : Gauges) : Gauges :=
  cs.foldl (fun acc c => (pollCycle pf c.status c.tasks acc).gauges) g

/-! ## Sample inputs -/

/-- A status document: 12 dashboards, 40 queries, size metrics of 500 and 900
bytes (the second pair value first), queue depths 3, 1 and 0, the outdated
count as the quoted string "7", version "8.0.0". -/
def sampleDoc : JSON :=
  .object [
    ("dashboards_count", .number "12"),
    ("database_metrics", .object [("metrics", .array [
      .array [.string "Query Results Size", .number "500"],
      .array [.number "900", .string "Redash DB Size"]])]),
    ("manager", .object [
      ("outdated_queries_count", .string "7"),
      ("queues", .object [
        ("celery", .object [("size", .number "3")]),
        ("queries", .object [("size", .number "1")]),
        ("scheduled_queries", .object [("size", .number "0")])])]),
    ("queries_count", .number "40"),
    ("query_results_count", .number "25"),
    ("redis_used_memory", .number "2048"),
    ("unused_query_results_count", .number "4"),
    ("version", .string "8.0.0"),
    ("widgets_count", .number "9")]

/-- The snapshot `sampleDoc` decodes to. -/
def sampleSnapshot : redashStatus :=
  { DashboardsCount := 12
    DatabaseMetrics := { Metrics := [[.string "Query Results Size", .float64 500],
      [.float64 900, .string "Redash DB Size"]] }
    Manager := { OutdatedQueriesCount := 7
                 Queues := { Celery := { Size := 3 }, Queries := { Size := 1 },
                             ScheduledQueries := { Size := 0 } } }
    QueriesCount := 40
    QueryResultsCount := 25
    RedisUsedMemory := 2048
    UnusedQueryResultsCount := 4
    RedashVersion := "8.0.0"
    WidgetsCount := 9 }

/-- A task list of three entries. -/
def sampleTasks : ApiAdminQueriesTasksAnswer :=
  { Tasks := [{ TaskID := "a", State := "executing_query" }, { TaskID := "b", State := "waiting" },
              { TaskID := "c", State := "waiting" }] }

/-- The gauges after one pass in which both endpoints answer, from the empty
registry. -/
def sampleGauges : Gauges :=
  (pollCycle parseNat (.body (some sampleDoc)) (.body sampleTasks none) Gauges.init).gauges

/-- A status document in which `outdated_queries_count` is an unquoted number,
which the `,string` option rejects. -/
def unquotedDoc : JSON :=
  .object [("manager", .object [("outdated_queries_count", .number "7")])]

/-- A status document of version "9.0.0" whose metrics list is empty. -/
def emptyMetricsDoc : JSON :=
  .object [("database_metrics", .object [("metrics", .array [])]), ("version", .string "9.0.0")]

/-! ## Reference definitions for the normalizer -/

/-- The text of a textual element. -/
def asText : Value → Option String
  | .string s => some s
  | _ => none

/-- The number of a numeric element. -/
def asNumber : Value → Option Float64
  | .float64 x => some x
  | _ => none

/-- The binding an entry contributes according to the specification: the last
textual element (the empty string if there is none) and the last numeric
element (zero if there is none). -/
def refBinding (entry : List Value) : String × Float64 :=
  ((entry.filterMap asText).getLast?.getD "", (entry.filterMap asNumber).getLast?.getD 0)

/-- The reference normalizer of the specification: the bindings of the entries
applied in list order to the empty map. -/
def normalizeRef (ms : List (List Value)) : MetricsMap :=
  (ms.map refBinding).foldl (fun m b => m.set b.1 b.2) MetricsMap.empty

/-! ## Lemmas on the normalizer -/

theorem scanEntry_append_singleton (e : List Value) (x : Value) :
    scanEntry (e ++ [x]) = scanElem (scanEntry e) x := by
  simp [scanEntry, List.foldl_append]

theorem scanEntry_eq_refBinding (e : List Value) : scanEntry e = refBinding e := by
  induction e using List.reverseRecOn with
  | nil => rfl
  | append_singleton e x ih =>
    rw [scanEntry_append_singleton, ih]
    cases x <;> simp [scanElem, refBinding, asText, asNumber, List.filterMap_append]

theorem normalizeStep_apply (m : MetricsMap) (e : List Value) (k : String) :
    normalizeStep m e k = if k = (scanEntry e).1 then some (scanEntry e).2 else m k := rfl

theorem foldl_normalizeStep_append_singleton (m : MetricsMap) (ms : List (List Value))
    (e : List Value) :
    (ms ++ [e]).foldl normalizeStep m = normalizeStep (ms.foldl normalizeStep m) e := by
  simp [List.foldl_append]

theorem foldl_normalizeStep_of_not_key (post : List (List Value)) (m : MetricsMap) (k : String)
    (h : ∀ e ∈ post, (scanEntry e).1 ≠ k) : (post.foldl normalizeStep m) k = m k := by
  induction post generalizing m with
  | nil => rfl
  | cons e post ih =>
    rw [List.foldl_cons, ih _ (fun e' he' => h e' (List.mem_cons_of_mem _ he'))]
    rw [normalizeStep_apply, if_neg]
    exact fun hk => h e (List.mem_cons_self _ _) hk.symm

theorem foldl_normalizeStep_congr (ms : List (List Value)) (m m' : MetricsMap) (k : String)
    (h : m k = m' k) : (ms.foldl normalizeStep m) k = (ms.foldl normalizeStep m') k := by
  induction ms generalizing m m' with
  | nil => exact h
  | cons e ms ih =>
    rw [List.foldl_cons, List.foldl_cons]
    apply ih
    rw [normalizeStep_apply, normalizeStep_apply, h]

theorem foldl_normalizeStep_filter (ms : List (List Value)) (m : MetricsMap) (k : String) :
    (ms.foldl normalizeStep m) k =
      ((ms.filter (fun e => decide ((scanEntry e).1 = k))).foldl normalizeStep m) k := by
  induction ms generalizing m with
  | nil => rfl
  | cons e ms ih =>
    by_cases hk : (scanEntry e).1 = k
    · rw [List.filter_cons_of_pos (by simpa using hk), List.foldl_cons, List.foldl_cons, ih]
    · rw [List.filter_cons_of_neg (by simpa using hk), List.foldl_cons, ih]
      apply foldl_normalizeStep_congr
      rw [normalizeStep_apply, if_neg (fun h => hk h.symm)]

theorem normalize_append_singleton (ms : List (List Value)) (e : List Value) :
    normalize (ms ++ [e]) = normalizeStep (normalize ms) e :=
  foldl_normalizeStep_append_singleton _ ms e

theorem normalize_apply_eq_of_filter_eq (ms ms' : List (List Value)) (k : String)
    (h : ms.filter (fun e => decide ((scanEntry e).1 = k)) =
      ms'.filter (fun e => decide ((scanEntry e).1 = k))) :
    normalize ms k = normalize ms' k := by
  unfold normalize
  rw [foldl_normalizeStep_filter ms, foldl_normalizeStep_filter ms', h]

theorem scanEntry_reverse_pair (e : List Value)
    (h : ∃ s x, e = [.string s, .float64 x] ∨ e = [.float64 x, .string s]) :
    scanEntry e.reverse = scanEntry e := by
  obtain ⟨s, x, h | h⟩ := h <;> subst h <;> rfl

theorem foldl_normalizeStep_reversed (ms ms' : List (List Value)) (m : MetricsMap)
    (hpairs : ∀ e ∈ ms, ∃ s x, e = [.string s, .float64 x] ∨ e = [.float64 x, .string s])
    (hrev : List.Forall₂ (fun e e' => e' = e ∨ e' = e.reverse) ms ms') :
    ms'.foldl normalizeStep m = ms.foldl normalizeStep m := by
  induction ms generalizing ms' m with
  | nil => cases hrev; rfl
  | cons e l ih =>
    cases hrev with
    | cons hee htl =>
      rename_i e' l'
      have hs : scanEntry e' = scanEntry e := by
        rcases hee with h | h
        · rw [h]
        · rw [h]; exact scanEntry_reverse_pair e (hpairs e (List.mem_cons_self _ _))
      have hstep : normalizeStep m e' = normalizeStep m e := by
        unfold normalizeStep; rw [hs]
      rw [List.foldl_cons, List.foldl_cons, hstep]
      exact ih l' _ (fun e1 he1 => hpairs e1 (List.mem_cons_of_mem _ he1)) htl

theorem publishSnapshot_congr (st : redashStatus) (ms ms' : List (List Value))
    (tr : TasksResponse) (g : Gauges)
    (hq : (normalize ms').get "Query Results Size" = (normalize ms).get "Query Results Size")
    (hd : (normalize ms').get "Redash DB Size" = (normalize ms).get "Redash DB Size") :
    publishSnapshot { st with DatabaseMetrics := { Metrics := ms' } } tr g =
      publishSnapshot { st with DatabaseMetrics := { Metrics := ms } } tr g := by
  simp only [publishSnapshot, publishStatus, hq, hd]

/-! ## The claims on the normalizer -/

/-- Claim C3: in a metrics list whose entries are pairs of one textual and one
numeric element, reversing the elements inside any of the pairs changes neither
the map built by the normalizer loop nor anything the pass publishes. -/
theorem C3_pair_order_irrelevant (ms ms' : List (List Value))
    (hpairs : ∀ e ∈ ms, ∃ s x, e = [.string s, .float64 x] ∨ e = [.float64 x, .string s])
    (hrev : List.Forall₂ (fun e e' => e' = e ∨ e' = e.reverse) ms ms') :
    normalize ms' = normalize ms ∧
    ∀ (st : redashStatus) (tr : TasksResponse) (g : Gauges),
      publishSnapshot { st with DatabaseMetrics := { Metrics := ms' } } tr g =
        publishSnapshot { st with DatabaseMetrics := { Metrics := ms } } tr g := by
  have h : normalize ms' = normalize ms := foldl_normalizeStep_reversed ms ms' _ hpairs hrev
  exact ⟨h, fun st tr g => publishSnapshot_congr st ms ms' tr g (by rw [h]) (by rw [h])⟩

/-- Witness of C3: the list with the pair of "Redash DB Size" reversed gives
the same map as the list in label-first order, and query results size 1024 and
db size 2048. -/
theorem C3_pair_order_irrelevant_witness :
    normalize [[.string "Query Results Size", .float64 1024],
        [.float64 2048, .string "Redash DB Size"]] =
      normalize [[.string "Query Results Size", .float64 1024],
        [.string "Redash DB Size", .float64 2048]] ∧
    (normalize [[.string "Query Results Size", .float64 1024],
        [.float64 2048, .string "Redash DB Size"]]).get "Query Results Size" = 1024 ∧
    (normalize [[.string "Query Results Size", .float64 1024],
        [.float64 2048, .string "Redash DB Size"]]).get "Redash DB Size" = 2048 :=
  ⟨(C3_pair_order_irrelevant
      [[.string "Query Results Size", .float64 1024], [.string "Redash DB Size", .float64 2048]]
      [[.string "Query Results Size", .float64 1024], [.float64 2048, .string "Redash DB Size"]]
      (by
        intro e he
        simp only [List.mem_cons, List.mem_singleton, List.not_mem_nil, or_false] at he
        rcases he with h | h
        · exact ⟨_, _, Or.inl h⟩
        · exact ⟨_, _, Or.inl h⟩)
      (List.Forall₂.cons (Or.inl rfl) (List.Forall₂.cons (Or.inr rfl) List.Forall₂.nil))).1,
    by decide, by decide⟩

/-- Claim C5: last write wins. The value the normalizer binds to a label is the
value recorded for the last entry, in list order, whose key is the label (no
binding when no entry has it), and the entries before that one have no
influence on it. -/
theorem C5_last_write_wins (ms pre pre' post : List (List Value)) (e : List Value)
    (k : String) :
    normalize ms k =
      ((ms.filter (fun e => decide ((scanEntry e).1 = k))).getLast?).map
        (fun e => (scanEntry e).2) ∧
    normalize (pre ++ e :: post) (scanEntry e).1 =
      normalize (pre' ++ e :: post) (scanEntry e).1 := by
  constructor
  · induction ms using List.reverseRecOn with
    | nil => rfl
    | append_singleton ms x ih =>
      rw [normalize_append_singleton, normalizeStep_apply, List.filter_append]
      by_cases hk : (scanEntry x).1 = k
      · rw [if_pos hk.symm, List.filter_cons_of_pos (by simpa using hk)]
        simp
      · rw [if_neg (fun h => hk h.symm), List.filter_cons_of_neg (by simpa using hk), ih]
        simp
  · unfold normalize
    rw [List.foldl_append, List.foldl_append, List.foldl_cons, List.foldl_cons]
    apply foldl_normalizeStep_congr
    rw [normalizeStep_apply, normalizeStep_apply, if_pos rfl, if_pos rfl]

/-- Claim C6: entries whose key is neither "Query Results Size" nor
"Redash DB Size" are ignored. Two metrics lists with the same entries of these
two keys, in the same order (one is got from the other by inserting and
removing entries of other keys at any positions), give the same two size
values, and the pass over a snapshot publishes the same gauges and logs the
same messages for both: it stays the successful pass. -/
theorem C6_unknown_labels_ignored (ms ms' : List (List Value))
    (h : ms.filter (fun e => decide ((scanEntry e).1 = "Query Results Size" ∨
            (scanEntry e).1 = "Redash DB Size")) =
         ms'.filter (fun e => decide ((scanEntry e).1 = "Query Results Size" ∨
            (scanEntry e).1 = "Redash DB Size"))) :
    (normalize ms').get "Query Results Size" = (normalize ms).get "Query Results Size" ∧
    (normalize ms').get "Redash DB Size" = (normalize ms).get "Redash DB Size" ∧
    ∀ (st : redashStatus) (tr : TasksResponse) (g : Gauges),
      publishSnapshot { st with DatabaseMetrics := { Metrics := ms' } } tr g =
        publishSnapshot { st with DatabaseMetrics := { Metrics := ms } } tr g := by
  have key : ∀ k : String, (k = "Query Results Size" ∨ k = "Redash DB Size") →
      (normalize ms').get k = (normalize ms).get k := by
    intro k hk
    unfold MetricsMap.get
    rw [normalize_apply_eq_of_filter_eq ms' ms k]
    have h2 := congrArg (List.filter (fun e => decide ((scanEntry e).1 = k))) h
    rw [List.filter_filter, List.filter_filter] at h2
    have hf : (fun e : List Value => (decide ((scanEntry e).1 = k) &&
        decide ((scanEntry e).1 = "Query Results Size" ∨ (scanEntry e).1 = "Redash DB Size")))
        = (fun e => decide ((scanEntry e).1 = k)) := by
      funext e
      by_cases he : (scanEntry e).1 = k
      · rcases hk with hk | hk <;> simp [he, hk]
      · simp [he]
    rw [hf] at h2
    exact h2.symm
  exact ⟨key _ (Or.inl rfl), key _ (Or.inr rfl),
    fun st tr g => publishSnapshot_congr st ms ms' tr g (key _ (Or.inl rfl)) (key _ (Or.inr rfl))⟩

/-- Witness of C6: the sample metrics list with three entries of other keys
inserted (at the head, in the middle and at the end, among them an entry with
no text and one with no number) gives the sizes 500 and 900 of the sample list
and the same pass. -/
theorem C6_unknown_labels_ignored_witness :
    (normalize [[.string "Index Size", .float64 7], [.string "Query Results Size", .float64 500],
      [.nil], [.float64 900, .string "Redash DB Size"], [.string "Tables"]]).get
      "Query Results Size" = 500 ∧
    (normalize [[.string "Index Size", .float64 7], [.string "Query Results Size", .float64 500],
      [.nil], [.float64 900, .string "Redash DB Size"], [.string "Tables"]]).get
      "Redash DB Size" = 900 ∧
    publishSnapshot { sampleSnapshot with DatabaseMetrics := { Metrics :=
        [[.string "Index Size", .float64 7], [.string "Query Results Size", .float64 500],
         [.nil], [.float64 900, .string "Redash DB Size"], [.string "Tables"]] } }
      (.body sampleTasks none) Gauges.init =
    publishSnapshot sampleSnapshot (.body sampleTasks none) Gauges.init :=
  have h := C6_unknown_labels_ignored
    [[.string "Query Results Size", .float64 500], [.float64 900, .string "Redash DB Size"]]
    [[.string "Index Size", .float64 7], [.string "Query Results Size", .float64 500],
     [.nil], [.float64 900, .string "Redash DB Size"], [.string "Tables"]] rfl
  ⟨h.1.trans (by decide), h.2.1.trans (by decide),
    h.2.2 sampleSnapshot (.body sampleTasks none) Gauges.init⟩

theorem getRedashStatus_sampleDoc :
    getRedashStatus parseNat (.body (some sampleDoc)) = .ok sampleSnapshot := by
  rfl

theorem pollCycle_ok (pf : String → Option Float64) (sr : StatusResponse) (tr : TasksResponse)
    (g : Gauges) (st : redashStatus) (h : getRedashStatus pf sr = .ok st) :
    pollCycle pf sr tr g = publishSnapshot st tr g := by
  simp only [pollCycle, h]

theorem pollCycle_error (pf : String → Option Float64) (sr : StatusResponse) (tr : TasksResponse)
    (g : Gauges) (err : String) (h : getRedashStatus pf sr = .error err) :
    pollCycle pf sr tr g = { gauges := g, logged := [err] } := by
  simp only [pollCycle, h]

theorem runCycles_append_singleton (pf : String → Option Float64) (cs : List Cycle) (c : Cycle)
    (g : Gauges) :
    runCycles pf (cs ++ [c]) g = (pollCycle pf c.status c.tasks (runCycles pf cs g)).gauges := by
  simp [runCycles, List.foldl_append]

theorem normalize_get_of_not_key (ms : List (List Value)) (k : String)
    (h : ∀ e ∈ ms, (scanEntry e).1 ≠ k) : (normalize ms).get k = 0 := by
  unfold MetricsMap.get normalize
  rw [foldl_normalizeStep_of_not_key ms _ k h]
  rfl

/-- Claim C8: on a successful status poll whose metrics list has no entry keyed
"Query Results Size" (respectively "Redash DB Size"), the pass sets
`redash_query_results_size_bytes` (respectively `redash_db_size_bytes`) to 0,
whatever the gauge held before. -/
theorem C8_missing_label_publishes_zero (pf : String → Option Float64) (sr : StatusResponse)
    (tr : TasksResponse) (g : Gauges) (st : redashStatus)
    (hs : getRedashStatus pf sr = .ok st) :
    ((∀ e ∈ st.DatabaseMetrics.Metrics, (scanEntry e).1 ≠ "Query Results Size") →
      (pollCycle pf sr tr g).gauges.queryResultsSize = some 0) ∧
    ((∀ e ∈ st.DatabaseMetrics.Metrics, (scanEntry e).1 ≠ "Redash DB Size") →
      (pollCycle pf sr tr g).gauges.dbSize = some 0) := by
  rw [pollCycle_ok pf sr tr g st hs]
  constructor
  · intro h
    show some ((normalize st.DatabaseMetrics.Metrics).get "Query Results Size") = some 0
    rw [normalize_get_of_not_key _ _ h]
  · intro h
    show some ((normalize st.DatabaseMetrics.Metrics).get "Redash DB Size") = some 0
    rw [normalize_get_of_not_key _ _ h]

/-- Witness of C8: after the sample pass both size gauges are set (500 and
900); a successful poll of a document with an empty metrics list then sets
both to 0. -/
theorem C8_missing_label_publishes_zero_witness :
    sampleGauges.queryResultsSize = some 500 ∧ sampleGauges.dbSize = some 900 ∧
    (pollCycle parseNat (.body (some emptyMetricsDoc)) (.body sampleTasks none)
      sampleGauges).gauges.queryResultsSize = some 0 ∧
    (pollCycle parseNat (.body (some emptyMetricsDoc)) (.body sampleTasks none)
      sampleGauges).gauges.dbSize = some 0 :=
  ⟨rfl, rfl,
    (C8_missing_label_publishes_zero parseNat (.body (some emptyMetricsDoc))
      (.body sampleTasks none) sampleGauges
      { DatabaseMetrics := { Metrics := [] }, RedashVersion := "9.0.0" } rfl).1
      (fun _ he => absurd he (List.not_mem_nil _)),
    (C8_missing_label_publishes_zero parseNat (.body (some emptyMetricsDoc))
      (.body sampleTasks none) sampleGauges
      { DatabaseMetrics := { Metrics := [] }, RedashVersion := "9.0.0" } rfl).2
      (fun _ he => absurd he (List.not_mem_nil _))⟩

theorem normalize_eq_normalizeRef (ms : List (List Value)) : normalize ms = normalizeRef ms := by
  unfold normalize normalizeRef
  rw [List.foldl_map]
  congr 1
  funext m e
  unfold normalizeStep
  rw [scanEntry_eq_refBinding]

/-- Claim C9, as stated, fails on its second example. After the entry
["Redash DB Size", 900], the entry ["Redash DB Size", "900"] has two textual
elements: the loop keeps the last one as key, so it binds "900" to 0 and the
label "Redash DB Size" keeps 900 instead of being overwritten with 0. -/
theorem C9_second_text_is_the_key :
    normalize [[.string "Redash DB Size", .float64 900],
      [.string "Redash DB Size", .string "900"]] "Redash DB Size" = some 900 ∧
    normalize [[.string "Redash DB Size", .float64 900],
      [.string "Redash DB Size", .string "900"]] "Redash DB Size" ≠ some 0 ∧
    normalize [[.string "Redash DB Size", .float64 900],
      [.string "Redash DB Size", .string "900"]] "900" = some 0 ∧
    scanEntry [.string "Redash DB Size", .string "900"] = ("900", 0) := by
  refine ⟨by decide, by decide, by decide, rfl⟩

/-- Claim C9, amended: the normalizer loop is a total function of the metrics
list and equals the reference `normalizeRef` (per entry: last textual element
or the empty string, last numeric element or 0, bindings applied in list order
to the empty map). An entry with no numeric element binds its key to 0 over any
earlier value: ["Redash DB Size", null] binds "Redash DB Size", while an entry
[label, text] binds the text, its last textual element, and leaves a different
label as it was. An entry with no textual element binds the empty key, which
leaves the two published keys as they were. -/
theorem C9_normalize_eq_reference (ms : List (List Value)) (label text : String)
    (entry : List Value) :
    normalize ms = normalizeRef ms ∧
    scanEntry entry = refBinding entry ∧
    (entry.filterMap asNumber = [] → normalize (ms ++ [entry]) (scanEntry entry).1 = some 0) ∧
    normalize (ms ++ [[.string label, .nil]]) label = some 0 ∧
    normalize (ms ++ [[.string label, .string text]]) text = some 0 ∧
    (label ≠ text →
      normalize (ms ++ [[.string label, .string text]]) label = normalize ms label) ∧
    (entry.filterMap asText = [] →
      (scanEntry entry).1 = "" ∧
      (normalize (ms ++ [entry])).get "Query Results Size" =
        (normalize ms).get "Query Results Size" ∧
      (normalize (ms ++ [entry])).get "Redash DB Size" = (normalize ms).get "Redash DB Size") := by
  refine ⟨normalize_eq_normalizeRef ms, scanEntry_eq_refBinding entry, ?_, ?_, ?_, ?_, ?_⟩
  · intro h
    rw [normalize_append_singleton, normalizeStep_apply, if_pos rfl, scanEntry_eq_refBinding]
    simp [refBinding, h]
  · rw [normalize_append_singleton, normalizeStep_apply]
    simp [scanEntry, scanElem]
  · rw [normalize_append_singleton, normalizeStep_apply]
    simp [scanEntry, scanElem]
  · intro h
    rw [normalize_append_singleton, normalizeStep_apply]
    simp [scanEntry, scanElem, h]
  · intro h
    have hk : (scanEntry entry).1 = "" := by
      rw [scanEntry_eq_refBinding]; simp [refBinding, h]
    refine ⟨hk, ?_, ?_⟩
    · unfold MetricsMap.get
      rw [normalize_append_singleton, normalizeStep_apply, hk, if_neg (by decide)]
    · unfold MetricsMap.get
      rw [normalize_append_singleton, normalizeStep_apply, hk, if_neg (by decide)]

/-- Witness of C9 (amended), at the list of one pair ["Redash DB Size", 900]
followed by the entry [null, true], which has neither text nor number. -/
theorem C9_normalize_eq_reference_witness :
    normalize ([[.string "Redash DB Size", .float64 900]] ++ [[.nil, .bool true]]) "" = some 0 ∧
    normalize ([[.string "Redash DB Size", .float64 900]] ++
      [[.string "Redash DB Size", .string "900"]]) "Redash DB Size" = some 900 ∧
    (normalize ([[.string "Redash DB Size", .float64 900]] ++ [[.nil, .bool true]])).get
      "Redash DB Size" = 900 :=
  ⟨(C9_normalize_eq_reference [[.string "Redash DB Size", .float64 900]] "Redash DB Size" "900"
      [.nil, .bool true]).2.2.1 rfl,
   ((C9_normalize_eq_reference [[.string "Redash DB Size", .float64 900]] "Redash DB Size" "900"
      [.nil, .bool true]).2.2.2.2.2.1 (by decide)).trans (by decide),
   ((C9_normalize_eq_reference [[.string "Redash DB Size", .float64 900]] "Redash DB Size" "900"
      [.nil, .bool true]).2.2.2.2.2.2 rfl).2.2.trans (by decide)⟩

/-! ## The claims on the polling pass -/

/-- Claim C1: a pass in which `getRedashStatus` returns an error leaves every
gauge as it was, `redash_active_tasks` included; hence after any number of
consecutive failed passes the gauges are still those the passes started from
(the values of the last successful pass). -/
theorem C1_failed_status_poll_keeps_gauges (pf : String → Option Float64) (g : Gauges)
    (cs : List Cycle)
    (hfail : ∀ c ∈ cs, ∃ err, getRedashStatus pf c.status = .error err) :
    (∀ c ∈ cs, (pollCycle pf c.status c.tasks g).gauges = g) ∧ runCycles pf cs g = g := by
  constructor
  · intro c hc
    obtain ⟨err, herr⟩ := hfail c hc
    rw [pollCycle_error pf c.status c.tasks g err herr]
  · induction cs using List.reverseRecOn with
    | nil => rfl
    | append_singleton cs c ih =>
      rw [runCycles_append_singleton,
        ih (fun c' hc' => hfail c' (List.mem_append_left _ hc'))]
      obtain ⟨err, herr⟩ := hfail c (List.mem_append_right _ (List.mem_singleton_self c))
      rw [pollCycle_error pf c.status c.tasks g err herr]

/-- Witness of C1: after the sample pass, four failed passes in a row (a
refused connection, a failed read, a body that is not JSON, a document the
decoder rejects) leave the sample gauges, whatever the task endpoint answers. -/
theorem C1_failed_status_poll_keeps_gauges_witness :
    runCycles parseNat
      [{ status := .getError "connection refused", tasks := .body sampleTasks none },
       { status := .readError "unexpected EOF", tasks := .body {} none },
       { status := .body none, tasks := .getError "connection refused" },
       { status := .body (some unquotedDoc), tasks := .body sampleTasks none }]
      sampleGauges = sampleGauges ∧
    sampleGauges.dashboardsCount = some 12 ∧ sampleGauges.activeTasksCount = some 3 :=
  ⟨(C1_failed_status_poll_keeps_gauges parseNat sampleGauges _ (by
      intro c hc
      simp only [List.mem_cons, List.mem_singleton, List.not_mem_nil, or_false] at hc
      rcases hc with h | h | h | h <;> subst h <;> exact ⟨_, rfl⟩)).2, rfl, rfl⟩

/-- Claim C2, evaluated on the code: when the status poll succeeds and the task
list fetch fails, the pass still sets `redash_active_tasks`, to the length of
the task list `getRedashTasks` returns beside its error: 0 after an error of
`http.Get` or of `ReadAll`. On the sample gauges, which hold 3, a refused
connection to the task endpoint leaves 0. -/
theorem C2_failed_task_fetch_overwrites_active_tasks (status : redashStatus) (g : Gauges)
    (e : String) (jsonBody : ApiAdminQueriesTasksAnswer) :
    (publishSnapshot status (.getError e) g).gauges.activeTasksCount = some 0 ∧
    (publishSnapshot status (.readError e) g).gauges.activeTasksCount = some 0 ∧
    (publishSnapshot status (.body jsonBody (some e)) g).gauges.activeTasksCount =
      some (jsonBody.Tasks.length : ℚ) ∧
    sampleGauges.activeTasksCount = some 3 ∧
    (getRedashTasks (.getError "connection refused")).2 =
      some "httpGet error : connection refused" ∧
    (pollCycle parseNat (.body (some sampleDoc)) (.getError "connection refused")
      sampleGauges).gauges.activeTasksCount = some 0 := by
  refine ⟨?_, ?_, rfl, rfl, rfl, rfl⟩
  · show some ((0 : ℕ) : ℚ) = some 0
    rw [Nat.cast_zero]
  · show some ((0 : ℕ) : ℚ) = some 0
    rw [Nat.cast_zero]

/-- Claim C4: a pass in which both `getRedashStatus` and `getRedashTasks`
succeed leaves every series at the value of the fresh snapshots, whatever the
gauges held before. -/
theorem C4_successful_poll_publishes_snapshot (pf : String → Option Float64)
    (sr : StatusResponse) (tr : TasksResponse) (g : Gauges) (st : redashStatus)
    (ts : ApiAdminQueriesTasksAnswer)
    (hs : getRedashStatus pf sr = .ok st) (ht : getRedashTasks tr = (ts, none)) :
    (pollCycle pf sr tr g).gauges.dashboardsCount = some st.DashboardsCount ∧
    (pollCycle pf sr tr g).gauges.outdatedQueriesCount = some st.Manager.OutdatedQueriesCount ∧
    (pollCycle pf sr tr g).gauges.queuesCelery = some st.Manager.Queues.Celery.Size ∧
    (pollCycle pf sr tr g).gauges.queuesQueries = some st.Manager.Queues.Queries.Size ∧
    (pollCycle pf sr tr g).gauges.queuesScheduledQueries =
      some st.Manager.Queues.ScheduledQueries.Size ∧
    (pollCycle pf sr tr g).gauges.queriesCount = some st.QueriesCount ∧
    (pollCycle pf sr tr g).gauges.queryResultsCount = some st.QueryResultsCount ∧
    (pollCycle pf sr tr g).gauges.redisUsedMemory = some st.RedisUsedMemory ∧
    (pollCycle pf sr tr g).gauges.unusedQueryResultsCount = some st.UnusedQueryResultsCount ∧
    (pollCycle pf sr tr g).gauges.widgetsCount = some st.WidgetsCount ∧
    (pollCycle pf sr tr g).gauges.queryResultsSize =
      some ((normalize st.DatabaseMetrics.Metrics).get "Query Results Size") ∧
    (pollCycle pf sr tr g).gauges.dbSize =
      some ((normalize st.DatabaseMetrics.Metrics).get "Redash DB Size") ∧
    (pollCycle pf sr tr g).gauges.info st.RedashVersion = some 1 ∧
    (pollCycle pf sr tr g).gauges.activeTasksCount = some (ts.Tasks.length : ℚ) ∧
    (pollCycle pf sr tr g).logged = [] := by
  rw [pollCycle_ok pf sr tr g st hs]
  simp [publishSnapshot, publishStatus, setInfo, ht]

/-- Witness of C4: the sample pass, run on gauges that already hold the values
of a poll of `emptyMetricsDoc`, publishes the values of the sample document:
12 dashboards, sizes 500 and 900, queue depths 3, 1 and 0, version "8.0.0" and
3 active tasks. -/
theorem C4_successful_poll_publishes_snapshot_witness :
    (pollCycle parseNat (.body (some sampleDoc)) (.body sampleTasks none)
      (pollCycle parseNat (.body (some emptyMetricsDoc)) (.body {} none)
        Gauges.init).gauges).gauges.dashboardsCount = some 12 ∧
    (pollCycle parseNat (.body (some sampleDoc)) (.body sampleTasks none)
      (pollCycle parseNat (.body (some emptyMetricsDoc)) (.body {} none)
        Gauges.init).gauges).gauges.queryResultsSize = some 500 ∧
    (pollCycle parseNat (.body (some sampleDoc)) (.body sampleTasks none)
      (pollCycle parseNat (.body (some emptyMetricsDoc)) (.body {} none)
        Gauges.init).gauges).gauges.dbSize = some 900 ∧
    (pollCycle parseNat (.body (some sampleDoc)) (.body sampleTasks none)
      (pollCycle parseNat (.body (some emptyMetricsDoc)) (.body {} none)
        Gauges.init).gauges).gauges.info "8.0.0" = some 1 ∧
    (pollCycle parseNat (.body (some sampleDoc)) (.body sampleTasks none)
      (pollCycle parseNat (.body (some emptyMetricsDoc)) (.body {} none)
        Gauges.init).gauges).gauges.activeTasksCount = some 3 :=
  have h := C4_successful_poll_publishes_snapshot parseNat (.body (some sampleDoc))
    (.body sampleTasks none)
    (pollCycle parseNat (.body (some emptyMetricsDoc)) (.body {} none) Gauges.init).gauges
    sampleSnapshot sampleTasks getRedashStatus_sampleDoc rfl
  ⟨h.1, h.2.2.2.2.2.2.2.2.2.2.1.trans (by decide), h.2.2.2.2.2.2.2.2.2.2.2.1.trans (by decide),
    h.2.2.2.2.2.2.2.2.2.2.2.2.1, h.2.2.2.2.2.2.2.2.2.2.2.2.2.1⟩

theorem pollCycle_info (pf : String → Option Float64) (sr : StatusResponse) (tr : TasksResponse)
    (g : Gauges) (v : String) :
    (pollCycle pf sr tr g).gauges.info v =
      match getRedashStatus pf sr with
      | .ok st => if v = st.RedashVersion then some 1 else g.info v
      | .error _ => g.info v := by
  unfold pollCycle
  cases getRedashStatus pf sr <;> rfl

theorem runCycles_info (pf : String → Option Float64) (cs : List Cycle) (v : String) :
    ((runCycles pf cs Gauges.init).info v = some 1 ∧
      ∃ c ∈ cs, ∃ st, getRedashStatus pf c.status = .ok st ∧ st.RedashVersion = v) ∨
    ((runCycles pf cs Gauges.init).info v = none ∧
      ¬ ∃ c ∈ cs, ∃ st, getRedashStatus pf c.status = .ok st ∧ st.RedashVersion = v) := by
  induction cs using List.reverseRecOn with
  | nil => right; exact ⟨rfl, by simp⟩
  | append_singleton cs c ih =>
    rw [runCycles_append_singleton, pollCycle_info]
    cases hc : getRedashStatus pf c.status with
    | error err =>
      rcases ih with ⟨h1, c', hc', hst⟩ | ⟨h1, h2⟩
      · left; exact ⟨h1, c', List.mem_append_left _ hc', hst⟩
      · right
        refine ⟨h1, ?_⟩
        rintro ⟨c', hc', st, hst, hv⟩
        rcases List.mem_append.1 hc' with hm | hm
        · exact h2 ⟨c', hm, st, hst, hv⟩
        · rw [List.mem_singleton.1 hm, hc] at hst
          cases hst
    | ok st =>
      by_cases hv : v = st.RedashVersion
      · left
        refine ⟨by simp [hv], c, List.mem_append_right _ (List.mem_singleton_self c), st, hc,
          hv.symm⟩
      · simp only [if_neg hv]
        rcases ih with ⟨h1, c', hc', hst⟩ | ⟨h1, h2⟩
        · left; exact ⟨h1, c', List.mem_append_left _ hc', hst⟩
        · right
          refine ⟨h1, ?_⟩
          rintro ⟨c', hc', st', hst, hv'⟩
          rcases List.mem_append.1 hc' with hm | hm
          · exact h2 ⟨c', hm, st', hst, hv'⟩
          · rw [List.mem_singleton.1 hm, hc] at hst
            cases hst
            exact hv hv'.symm

/-- Claim C10: in every state reached from the empty registry by a sequence of
passes, each `redash_info` series has value 1, the version labels present are
exactly the versions of the successful status polls so far, and one more pass
neither removes nor changes a series that is present. Hence after two more
successful polls both their versions are present with value 1. -/
theorem C10_info_series_only_added (pf : String → Option Float64) (cs : List Cycle)
    (c c1 c2 : Cycle) (v : String) (x : Float64) :
    ((runCycles pf cs Gauges.init).info v = some x → x = 1) ∧
    ((runCycles pf cs Gauges.init).info v ≠ none ↔
      ∃ c' ∈ cs, ∃ st, getRedashStatus pf c'.status = .ok st ∧ st.RedashVersion = v) ∧
    ((runCycles pf cs Gauges.init).info v = some x →
      (pollCycle pf c.status c.tasks (runCycles pf cs Gauges.init)).gauges.info v = some x) ∧
    (∀ st1 st2, getRedashStatus pf c1.status = .ok st1 → getRedashStatus pf c2.status = .ok st2 →
      (runCycles pf (cs ++ [c1, c2]) Gauges.init).info st1.RedashVersion = some 1 ∧
      (runCycles pf (cs ++ [c1, c2]) Gauges.init).info st2.RedashVersion = some 1) := by
  have hval : (runCycles pf cs Gauges.init).info v = some x → x = 1 := by
    intro h
    rcases runCycles_info pf cs v with ⟨h1, _⟩ | ⟨h1, _⟩
    · rw [h1] at h; exact (Option.some.inj h).symm
    · rw [h1] at h; cases h
  refine ⟨hval, ?_, ?_, ?_⟩
  · rcases runCycles_info pf cs v with ⟨h1, h2⟩ | ⟨h1, h2⟩
    · rw [h1]; exact ⟨fun _ => h2, fun _ => by simp⟩
    · rw [h1]; exact ⟨fun h => absurd rfl h, fun h => absurd h h2⟩
  · intro h
    rw [pollCycle_info]
    cases getRedashStatus pf c.status with
    | error err => exact h
    | ok st =>
      by_cases hv : v = st.RedashVersion
      · simp only [if_pos hv]; rw [hval h]
      · simp only [if_neg hv]; exact h
  · intro st1 st2 h1 h2
    constructor
    · rcases runCycles_info pf (cs ++ [c1, c2]) st1.RedashVersion with ⟨h, _⟩ | ⟨_, h⟩
      · exact h
      · exact absurd ⟨c1, by simp, st1, h1, rfl⟩ h
    · rcases runCycles_info pf (cs ++ [c1, c2]) st2.RedashVersion with ⟨h, _⟩ | ⟨_, h⟩
      · exact h
      · exact absurd ⟨c2, by simp, st2, h2, rfl⟩ h

/-- Witness of C10: a failed pass, then successful polls reporting "8.0.0" and
"9.0.0": both `redash_info` series are present with value 1. -/
theorem C10_info_series_only_added_witness :
    (runCycles parseNat
      ([{ status := .body none, tasks := .body {} none }] ++
       [{ status := .body (some sampleDoc), tasks := .body sampleTasks none },
        { status := .body (some emptyMetricsDoc), tasks := .getError "timeout" }])
      Gauges.init).info "8.0.0" = some 1 ∧
    (runCycles parseNat
      ([{ status := .body none, tasks := .body {} none }] ++
       [{ status := .body (some sampleDoc), tasks := .body sampleTasks none },
        { status := .body (some emptyMetricsDoc), tasks := .getError "timeout" }])
      Gauges.init).info "9.0.0" = some 1 :=
  (C10_info_series_only_added parseNat [{ status := .body none, tasks := .body {} none }]
    { status := .body none, tasks := .body {} none }
    { status := .body (some sampleDoc), tasks := .body sampleTasks none }
    { status := .body (some emptyMetricsDoc), tasks := .getError "timeout" }
    "8.0.0" 1).2.2.2 sampleSnapshot
    { DatabaseMetrics := { Metrics := [] }, RedashVersion := "9.0.0" } rfl rfl

/-! ## The claim on the decoder -/

theorem foldlM_map_comm {α β : Type} (f : α → β → Except String α) (g : α → α) (l : List β)
    (h : ∀ b ∈ l, ∀ a, f (g a) b = (f a b).map g) (a : α) :
    l.foldlM f (g a) = (l.foldlM f a).map g := by
  induction l generalizing a with
  | nil => rfl
  | cons b l ih =>
    rw [List.foldlM_cons, List.foldlM_cons, h b (List.mem_cons_self _ _) a]
    cases hfa : f a b with
    | error e => rfl
    | ok a' => exact ih (fun b' hb' => h b' (List.mem_cons_of_mem _ hb')) a'

theorem foldlM_replace {α β : Type} (f : α → β → Except String α) (g : α → α)
    (l1 l2 : List β) (x x' : β) (hx : ∀ a, f a x = (f a x').map g)
    (h : ∀ b ∈ l2, ∀ a, f (g a) b = (f a b).map g) (a : α) :
    (l1 ++ x :: l2).foldlM f a = ((l1 ++ x' :: l2).foldlM f a).map g := by
  rw [List.foldlM_append, List.foldlM_append]
  cases h1 : l1.foldlM f a with
  | error e => rfl
  | ok a1 =>
    show (x :: l2).foldlM f a1 = ((x' :: l2).foldlM f a1).map g
    rw [List.foldlM_cons, List.foldlM_cons, hx a1]
    cases hfa : f a1 x' with
    | error e => rfl
    | ok a' => exact foldlM_map_comm f g l2 h a'

theorem foldlM_insert {α β : Type} (f : α → β → Except String α) (g : α → α)
    (l1 l2 : List β) (x : β) (hx : ∀ a, f a x = .ok (g a))
    (h : ∀ b ∈ l2, ∀ a, f (g a) b = (f a b).map g) (a : α) :
    (l1 ++ x :: l2).foldlM f a = ((l1 ++ l2).foldlM f a).map g := by
  rw [List.foldlM_append, List.foldlM_append]
  cases h1 : l1.foldlM f a with
  | error e => rfl
  | ok a1 =>
    show (x :: l2).foldlM f a1 = (l2.foldlM f a1).map g
    rw [List.foldlM_cons, hx a1]
    exact foldlM_map_comm f g l2 h a1

theorem literalStoreQuoted_number (pf : String → Option Float64) (cur n : Float64) (s : String)
    (c : Char) (rest : List Char) (hs : s.data = c :: rest)
    (hc : c = '-' ∨ ('0' ≤ c ∧ c ≤ '9')) (hpf : pf s = some n) :
    literalStoreQuoted pf cur s = .ok n := by
  have h1 : c ≠ 'n' := by rintro rfl; revert hc; decide
  have h2 : ¬ (c = 't' ∨ c = 'f' ∨ c = Char.ofNat 34) := by
    rintro (rfl | rfl | rfl) <;> revert hc <;> decide
  have h3 : ¬ (c ≠ '-' ∧ ¬ ('0' ≤ c ∧ c ≤ '9')) := by
    rintro ⟨ha, hb⟩
    rcases hc with hc | hc
    · exact ha hc
    · exact hb hc
  unfold literalStoreQuoted
  rw [hs]
  simp only [if_neg h1, if_neg h2, if_neg h3, hpf]

theorem decodeManagerMember_outdated (pf : String → Option Float64) (cur : Manager)
    (n : Float64) (s : String) (c : Char) (rest : List Char) (hs : s.data = c :: rest)
    (hc : c = '-' ∨ ('0' ≤ c ∧ c ≤ '9')) (hpf : pf s = some n) :
    decodeManagerMember pf cur ("outdated_queries_count", .string s) =
      .ok { cur with OutdatedQueriesCount := n } := by
  have hf : findField managerFields "outdated_queries_count" = some "outdated_queries_count" := by
    rfl
  simp only [decodeManagerMember, hf, decodeQuotedFloat64, if_true,
    literalStoreQuoted_number pf cur.OutdatedQueriesCount n s c rest hs hc hpf]
  rfl

theorem except_map_map {α β γ : Type} (f : α → β) (g : β → γ) (r : Except String α) :
    (r.map f).map g = r.map (fun x => g (f x)) := by
  cases r <;> rfl

theorem decodeManagerMember_comm (pf : String → Option Float64) (n : Float64)
    (kv : String × JSON)
    (hk : findField managerFields kv.1 ≠ some "outdated_queries_count") (cur : Manager) :
    decodeManagerMember pf { cur with OutdatedQueriesCount := n } kv =
      (decodeManagerMember pf cur kv).map (fun m => { m with OutdatedQueriesCount := n }) := by
  unfold decodeManagerMember
  cases hf : findField managerFields kv.1 with
  | none => rfl
  | some f =>
    have hfm : f ≠ "outdated_queries_count" := by
      rintro rfl; exact hk hf
    simp only [if_neg hfm]
    by_cases hq : f = "queues"
    · simp only [if_pos hq]
      rw [except_map_map]
    · simp only [if_neg hq]
      rfl

theorem decodeStatusMember_comm (pf : String → Option Float64) (n : Float64)
    (kv : String × JSON) (hk : findField statusFields kv.1 ≠ some "manager")
    (cur : redashStatus) :
    decodeStatusMember pf
        { cur with Manager := { cur.Manager with OutdatedQueriesCount := n } } kv =
      (decodeStatusMember pf cur kv).map
        (fun st => { st with Manager := { st.Manager with OutdatedQueriesCount := n } }) := by
  unfold decodeStatusMember
  cases hf : findField statusFields kv.1 with
  | none => rfl
  | some f =>
    have hfm : f ≠ "manager" := by
      rintro rfl; exact hk hf
    simp only [if_neg hfm]
    split_ifs <;> first
      | rfl
      | rw [except_map_map]

theorem decodeManager_quoted_outdated (pf : String → Option Float64) (n : Float64) (s : String)
    (c : Char) (rest : List Char) (hs : s.data = c :: rest)
    (hc : c = '-' ∨ ('0' ≤ c ∧ c ≤ '9')) (hpf : pf s = some n)
    (m1 m2 : List (String × JSON))
    (hm2 : ∀ kv ∈ m2, findField managerFields kv.1 ≠ some "outdated_queries_count")
    (cur : Manager) :
    decodeManager pf cur (.object (m1 ++ ("outdated_queries_count", .string s) :: m2)) =
      (decodeManager pf cur (.object (m1 ++ m2))).map
        (fun m => { m with OutdatedQueriesCount := n }) :=
  foldlM_insert (decodeManagerMember pf) (fun m => { m with OutdatedQueriesCount := n }) m1 m2 _
    (fun a => decodeManagerMember_outdated pf a n s c rest hs hc hpf)
    (fun kv hkv a => decodeManagerMember_comm pf n kv (hm2 kv hkv) a) cur

theorem unmarshalStatus_quoted_outdated (pf : String → Option Float64) (n : Float64) (s : String)
    (c : Char) (rest : List Char) (hs : s.data = c :: rest)
    (hc : c = '-' ∨ ('0' ≤ c ∧ c ≤ '9')) (hpf : pf s = some n)
    (t1 t2 m1 m2 : List (String × JSON))
    (hm2 : ∀ kv ∈ m2, findField managerFields kv.1 ≠ some "outdated_queries_count")
    (ht2 : ∀ kv ∈ t2, findField statusFields kv.1 ≠ some "manager") :
    unmarshalStatus pf (some (.object (t1 ++
        ("manager", .object (m1 ++ ("outdated_queries_count", .string s) :: m2)) :: t2))) =
      (unmarshalStatus pf (some (.object (t1 ++ ("manager", .object (m1 ++ m2)) :: t2)))).map
        (fun st => { st with Manager := { st.Manager with OutdatedQueriesCount := n } }) := by
  refine foldlM_replace (decodeStatusMember pf)
    (fun st => { st with Manager := { st.Manager with OutdatedQueriesCount := n } }) t1 t2 _ _
    ?_ (fun kv hkv a => decodeStatusMember_comm pf n kv (ht2 kv hkv) a) _
  intro a
  have hf : findField statusFields "manager" = some "manager" := by rfl
  have h1 : ("manager" : String) ≠ "dashboards_count" := by decide
  have h2 : ("manager" : String) ≠ "database_metrics" := by decide
  simp only [decodeStatusMember, hf, if_neg h1, if_neg h2, if_true]
  rw [decodeManager_quoted_outdated pf n s c rest hs hc hpf m1 m2 hm2, except_map_map,
    except_map_map]

/-- Claim C7: a status document whose `manager.outdated_queries_count` is a
quoted number (a string that starts with `-` or a digit and that
`strconv.ParseFloat` accepts, with value `n`) decodes whenever the rest of the
document does, the snapshot's outdated-queries count is `n`, and the pass
publishes `n` as `redash_outdated_queries_count` without logging an error of
the status poll. The quoted member is the last one of that name. -/
theorem C7_quoted_outdated_count_decodes (pf : String → Option Float64) (n : Float64)
    (s : String) (c : Char) (rest : List Char) (t1 t2 m1 m2 : List (String × JSON))
    (st0 : redashStatus) (tr : TasksResponse) (g : Gauges)
    (hs : s.data = c :: rest) (hc : c = '-' ∨ ('0' ≤ c ∧ c ≤ '9')) (hpf : pf s = some n)
    (hm2 : ∀ kv ∈ m2, findField managerFields kv.1 ≠ some "outdated_queries_count")
    (ht2 : ∀ kv ∈ t2, findField statusFields kv.1 ≠ some "manager")
    (hrest : unmarshalStatus pf (some (.object (t1 ++
      ("manager", .object (m1 ++ m2)) :: t2))) = .ok st0) :
    getRedashStatus pf (.body (some (.object (t1 ++
        ("manager", .object (m1 ++ ("outdated_queries_count", .string s) :: m2)) :: t2)))) =
      .ok { st0 with Manager := { st0.Manager with OutdatedQueriesCount := n } } ∧
    (pollCycle pf (.body (some (.object (t1 ++
        ("manager", .object (m1 ++ ("outdated_queries_count", .string s) :: m2)) :: t2)))) tr
      g).gauges.outdatedQueriesCount = some n := by
  have h : getRedashStatus pf (.body (some (.object (t1 ++
        ("manager", .object (m1 ++ ("outdated_queries_count", .string s) :: m2)) :: t2)))) =
      .ok { st0 with Manager := { st0.Manager with OutdatedQueriesCount := n } } := by
    simp only [getRedashStatus]
    rw [unmarshalStatus_quoted_outdated pf n s c rest hs hc hpf t1 t2 m1 m2 hm2 ht2, hrest]
    rfl
  refine ⟨h, ?_⟩
  rw [pollCycle_ok pf _ tr g _ h]
  rfl

/-- Witness of C7: in the sample document the outdated count arrives as the
string "7"; the document decodes to the sample snapshot, whose count is 7, and
the pass publishes 7. -/
theorem C7_quoted_outdated_count_decodes_witness :
    getRedashStatus parseNat (.body (some sampleDoc)) = .ok sampleSnapshot ∧
    sampleSnapshot.Manager.OutdatedQueriesCount = 7 ∧
    (pollCycle parseNat (.body (some sampleDoc)) (.body sampleTasks none)
      Gauges.init).gauges.outdatedQueriesCount = some 7 :=
  have h := C7_quoted_outdated_count_decodes parseNat 7 "7" '7' []
    [("dashboards_count", .number "12"),
     ("database_metrics", .object [("metrics", .array [
        .array [.string "Query Results Size", .number "500"],
        .array [.number "900", .string "Redash DB Size"]])])]
    [("queries_count", .number "40"), ("query_results_count", .number "25"),
     ("redis_used_memory", .number "2048"), ("unused_query_results_count", .number "4"),
     ("version", .string "8.0.0"), ("widgets_count", .number "9")]
    []
    [("queues", .object [
        ("celery", .object [("size", .number "3")]),
        ("queries", .object [("size", .number "1")]),
        ("scheduled_queries", .object [("size", .number "0")])])]
    { sampleSnapshot with Manager := { sampleSnapshot.Manager with OutdatedQueriesCount := 0 } }
    (.body sampleTasks none) Gauges.init rfl (Or.inr (by decide)) rfl
    (by
      intro kv hkv
      simp only [List.mem_singleton] at hkv
      subst hkv
      decide)
    (by
      intro kv hkv
      simp only [List.mem_cons, List.mem_singleton, List.not_mem_nil, or_false] at hkv
      rcases hkv with h | h | h | h | h | h <;> subst h <;> decide)
    rfl
  ⟨h.1, rfl, h.2⟩

end RedashExporter
